import Mathlib

/-!
Verification of the glass-recommendation engine (`recommender.py`).

The engine classifies an integer age into one of five age groups, looks up a
base frame list for a face shape, removes entries discouraged for the age
group, and assembles a recommendation record.  Python exceptions are modelled
with `Except String`; Python strings are Lean `String`s, with `str.strip` and
`str.lower` modelled on the character list (`String.data`).
-/

set_option maxRecDepth 10000

/-- Python `str.strip()` on the character list: drop whitespace from both ends. -/
def stripList (l : List Char) : List Char :=
  ((l.dropWhile Char.isWhitespace).reverse.dropWhile Char.isWhitespace).reverse

/-- Python `str.strip()`. -/
def strStrip (s : String) : String :=
  String.mk (stripList s.data)

/-- Python `str.lower()` on the character list (ASCII case mapping). -/
def lowerList (l : List Char) : List Char :=
  l.map Char.toLower

/-- Python `str.lower()`. -/
def strLower (s : String) : String :=
  String.mk (lowerList s.data)

/-- The normalization `face_shape.strip().lower()` performed by `recommend_glasses`. -/
def normalizeShape (s : String) : String :=
  strLower (strStrip s)

/-- Python `", ".join(xs)`. -/
def commaJoin : List String → String
  | [] => ""
  | [x] => x
  | x :: xs => x ++ ", " ++ commaJoin xs

/-- Python `"\n".join(xs)`. -/
def newlineJoin : List String → String
  | [] => ""
  | [x] => x
  | x :: xs => x ++ "\n" ++ newlineJoin xs

/-- Splitting a character list at newline characters, with an accumulator for
the current (reversed) line. -/
def splitLinesAux (cur : List Char) : List Char → List (List Char)
  | [] => [cur.reverse]
  | c :: cs => if c = '\n' then cur.reverse :: splitLinesAux [] cs else splitLinesAux (c :: cur) cs

/-- The lines of a string, as character lists. -/
def linesOf (s : String) : List (List Char) :=
  splitLinesAux [] s.data

/-- Whether some line of `s` starts with `header`. -/
def hasLineStarting (header : String) (s : String) : Bool :=
  (linesOf s).any (fun l => header.data.isPrefixOf l)

/-- A string that contains no newline character. -/
def noNewline (s : String) : Prop :=
  '\n' ∉ s.data

instance {ε α : Type} [DecidableEq ε] [DecidableEq α] : DecidableEq (Except ε α) := fun a b =>
  match a, b with
  | .error x, .error y =>
    match decEq x y with
    | isTrue h => isTrue (h ▸ rfl)
    | isFalse h => isFalse (fun hc => by cases hc; exact h rfl)
  | .error _, .ok _ => isFalse (fun hc => by cases hc)
  | .ok _, .error _ => isFalse (fun hc => by cases hc)
  | .ok x, .ok y =>
    match decEq x y with
    | isTrue h => isTrue (h ▸ rfl)
    | isFalse h => isFalse (fun hc => by cases hc; exact h rfl)

/-- `AGE_GROUPS`: the ordered age-group table of `recommender.py` (dict in
insertion order, each label with its inclusive bounds). -/
def AGE_GROUPS : List (String × Int × Int) :=
  [("child", 0, 12),
   ("teen", 13, 17),
   ("young_adult", 18, 35),
   ("adult", 36, 59),
   ("senior", 60, 150)]

/-- The `for group, (lo, hi) in AGE_GROUPS.items()` loop of `classify_age_group`:
first table entry whose inclusive range contains `age`. -/
def findGroup (age : Int) : List (String × Int × Int) → Option String
  | [] => none
  | (g, lo, hi) :: rest => if lo ≤ age ∧ age ≤ hi then some g else findGroup age rest

/-- `classify_age_group` from `recommender.py`; `ValueError` is modelled as
`Except.error` carrying the message. -/
def classify_age_group (age : Int) : Except String String :=
  if age < 0 then
    .error ("Age must be non-negative, got " ++ toString age)
  else
    match findGroup age AGE_GROUPS with
    | some g => .ok g
    | none => .error ("Could not classify age " ++ toString age)

/-- `_FACE_SHAPE_FRAMES`: base frame styles for each face shape. -/
def _FACE_SHAPE_FRAMES : List (String × List String) :=
  [("oval", ["aviator", "wayfarer", "round", "cat-eye", "geometric"]),
   ("round", ["rectangular", "square", "geometric", "browline", "wayfarer"]),
   ("square", ["round", "oval", "rimless", "cat-eye", "aviator"]),
   ("heart", ["aviator", "round", "rimless", "light-colored frames"]),
   ("oblong", ["tall frames", "decorative temples", "round", "square"]),
   ("diamond", ["cat-eye", "oval", "rimless browline"]),
   ("triangle", ["top-heavy frames", "browline", "cat-eye", "aviator"])]

/-- One entry of `_AGE_GROUP_MODIFIERS`: frames to prefer, frames to avoid,
and fit notes for an age group. -/
structure AgeModifier where
  prefer : List String
  avoid : List String
  fit_notes : String
deriving DecidableEq

/-- `_AGE_GROUP_MODIFIERS`: age-group modifiers table. -/
def _AGE_GROUP_MODIFIERS : List (String × AgeModifier) :=
  [("child",
    { prefer := ["flexible frames", "small fit", "rubber nose pads", "polycarbonate lenses"],
      avoid := ["rimless", "large frames", "heavy metal frames"],
      fit_notes := "Small/petite fit; lightweight and durable materials are essential." }),
   ("teen",
    { prefer := ["trendy styles", "sporty frames", "medium fit"],
      avoid := ["very large oversized frames"],
      fit_notes := "Medium fit; style-conscious options work well." }),
   ("young_adult",
    { prefer := ["fashion-forward", "bold colors", "geometric", "large fit"],
      avoid := [],
      fit_notes := "Standard adult fit; wide variety of styles suitable." }),
   ("adult",
    { prefer := ["classic styles", "professional frames", "progressive-lens ready"],
      avoid := [],
      fit_notes := "Standard to wide fit; consider progressive-lens compatibility." }),
   ("senior",
    { prefer := ["progressive-lens ready", "lightweight frames", "wide fit",
                 "high nose bridge", "spring hinges"],
      avoid := ["very small frames", "heavy frames"],
      fit_notes := "Wide fit with spring hinges; frames should accommodate progressive or bifocal lenses. Lightweight materials (titanium, memory metal) reduce fatigue." })]

/-- The `GlassRecommendation` dataclass. -/
structure GlassRecommendation where
  face_shape : String
  age : Int
  age_group : String
  recommended_frames : List String
  preferred_features : List String
  frames_to_avoid : List String
  fit_notes : String
  lens_suggestions : List String := []
deriving DecidableEq

/-- The `lines` list built by `GlassRecommendation.summary` before joining. -/
def summaryLines (r : GlassRecommendation) : List String :=
  let lines := ["Face shape  : " ++ r.face_shape,
                "Age         : " ++ toString r.age ++ " (" ++ r.age_group ++ ")",
                "Frames      : " ++ commaJoin r.recommended_frames,
                "Features    : " ++ commaJoin r.preferred_features]
  let lines := if r.frames_to_avoid.isEmpty then lines
               else lines ++ ["Avoid       : " ++ commaJoin r.frames_to_avoid]
  let lines := if r.lens_suggestions.isEmpty then lines
               else lines ++ ["Lenses      : " ++ commaJoin r.lens_suggestions]
  lines ++ ["Fit notes   : " ++ r.fit_notes]

/-- `GlassRecommendation.summary`. -/
def GlassRecommendation.summary (r : GlassRecommendation) : String :=
  newlineJoin (summaryLines r)

/-- `_AGE_LENS_SUGGESTIONS`: lens suggestions by age group. -/
def _AGE_LENS_SUGGESTIONS : List (String × List String) :=
  [("child", ["polycarbonate lenses", "anti-scratch coating", "UV400 protection"]),
   ("teen", ["polycarbonate lenses", "anti-reflective coating", "UV400 protection"]),
   ("young_adult", ["single-vision", "anti-reflective coating", "blue-light filter"]),
   ("adult", ["progressive lenses", "anti-reflective coating", "blue-light filter",
              "UV400 protection"]),
   ("senior", ["progressive or bifocal lenses", "anti-reflective coating",
               "photochromic option", "UV400 protection",
               "high-index lenses to reduce weight"])]

/-- Python `repr` of a list of strings, as used by the f-string in the
unknown-face-shape error message. -/
def pyStrListRepr (xs : List String) : String :=
  "[" ++ commaJoin (xs.map (fun s => "\x27" ++ s ++ "\x27")) ++ "]"

/-- The `ValueError` message raised by `recommend_glasses` for an unknown
face shape. -/
def unknownShapeMessage (fs : String) : String :=
  "Unknown face shape \x27" ++ fs ++ "\x27. Supported shapes: " ++
    pyStrListRepr (_FACE_SHAPE_FRAMES.map Prod.fst)

/-- `recommend_glasses` from `recommender.py`.  Member lookup and indexing of
the Python dicts are modelled with `List.lookup` on the association lists; the
(unreachable) `KeyError` of `_AGE_GROUP_MODIFIERS[age_group]` is modelled as an
error, and `_AGE_LENS_SUGGESTIONS.get(age_group, [])` as `Option.getD`. -/
def recommend_glasses (face_shape : String) (age : Int) : Except String GlassRecommendation :=
  let fs := normalizeShape face_shape
  match _FACE_SHAPE_FRAMES.lookup fs with
  | none => .error (unknownShapeMessage fs)
  | some base_frames =>
    match classify_age_group age with
    | .error e => .error e
    | .ok age_group =>
      match _AGE_GROUP_MODIFIERS.lookup age_group with
      | none => .error ("KeyError: " ++ age_group)
      | some modifiers =>
        let frames_to_avoid := modifiers.avoid
        let recommended := base_frames.filter (fun f => !(frames_to_avoid.contains f))
        .ok { face_shape := fs,
              age := age,
              age_group := age_group,
              recommended_frames := recommended,
              preferred_features := modifiers.prefer,
              frames_to_avoid := frames_to_avoid,
              fit_notes := modifiers.fit_notes,
              lens_suggestions := (_AGE_LENS_SUGGESTIONS.lookup age_group).getD [] }

/-- Modelled from the spec: the age-group label the specification's five
inclusive ranges (child 0-12, teen 13-17, young_adult 18-35, adult 36-59,
senior 60-150) assign to an age in [0,150].  Used to compare the code's
classifier against the specified partition. -/
def specAgeLabel (age : Int) : String :=
  if age ≤ 12 then "child"
  else if age ≤ 17 then "teen"
  else if age ≤ 35 then "young_adult"
  else if age ≤ 59 then "adult"
  else "senior"

/-- All string fields of a recommendation, including every list entry, are free
of newline characters (as is the case for every value the engine itself builds). -/
def noNewlineFields (r : GlassRecommendation) : Prop :=
  noNewline r.face_shape ∧ noNewline r.age_group ∧ noNewline r.fit_notes ∧
  (∀ x ∈ r.recommended_frames, noNewline x) ∧
  (∀ x ∈ r.preferred_features, noNewline x) ∧
  (∀ x ∈ r.frames_to_avoid, noNewline x) ∧
  (∀ x ∈ r.lens_suggestions, noNewline x)

instance (s : String) : Decidable (noNewline s) :=
  inferInstanceAs (Decidable ('\n' ∉ s.data))

instance (r : GlassRecommendation) : Decidable (noNewlineFields r) := by
  unfold noNewlineFields
  infer_instance

/-- A recommendation value whose `face_shape` field smuggles in a forged
"Avoid" line via an embedded newline, while `frames_to_avoid` is empty. -/
def forgedRec : GlassRecommendation :=
  { face_shape := "x\nAvoid       : y", age := 0, age_group := "g",
    recommended_frames := [], preferred_features := [], frames_to_avoid := [],
    fit_notes := "note", lens_suggestions := [] }

/-- A plain recommendation value with newline-free fields, used as a concrete
instance for the summary-rendering theorem. -/
def plainRec : GlassRecommendation :=
  { face_shape := "oval", age := 30, age_group := "young_adult",
    recommended_frames := ["aviator", "wayfarer"], preferred_features := ["bold colors"],
    frames_to_avoid := [], fit_notes := "Standard adult fit.",
    lens_suggestions := ["single-vision"] }

/-! ## General association-list lemmas -/

lemma lookup_eq_none_of_not_mem {β : Type} (l : List (String × β)) (k : String)
    (h : k ∉ l.map Prod.fst) : l.lookup k = none := by
  induction l with
  | nil => rfl
  | cons a t ih =>
    obtain ⟨a1, a2⟩ := a
    simp only [List.map_cons, List.mem_cons, not_or] at h
    have hk : (k == a1) = false := beq_eq_false_iff_ne.mpr h.1
    simp [List.lookup, hk, ih h.2]

lemma mem_of_lookup_eq_some {β : Type} (l : List (String × β)) (k : String) (b : β)
    (h : l.lookup k = some b) : (k, b) ∈ l := by
  induction l with
  | nil => simp [List.lookup] at h
  | cons a t ih =>
    obtain ⟨a1, a2⟩ := a
    by_cases hk : k = a1
    · subst hk
      simp [List.lookup] at h
      simp [h]
    · have hk2 : (k == a1) = false := beq_eq_false_iff_ne.mpr hk
      simp only [List.lookup, hk2] at h
      exact List.mem_cons_of_mem _ (ih h)

/-! ## Age classification lemmas -/

lemma classify_age_group_nat :
    ∀ n : Nat, n < 151 →
      (AGE_GROUPS.filter
          (fun p => decide (p.2.1 ≤ (n : Int)) && decide ((n : Int) ≤ p.2.2))).map Prod.fst
        = [specAgeLabel (n : Int)] ∧
      classify_age_group (n : Int) = .ok (specAgeLabel (n : Int)) := by decide

lemma classify_ok (age : Int) (h0 : 0 ≤ age) (h1 : age ≤ 150) :
    classify_age_group age = .ok (specAgeLabel age) := by
  have h3 : ((age.toNat : Nat) : Int) = age := Int.toNat_of_nonneg h0
  have h2 : age.toNat < 151 := by omega
  have h4 := (classify_age_group_nat age.toNat h2).2
  rwa [h3] at h4

lemma classify_filter (age : Int) (h0 : 0 ≤ age) (h1 : age ≤ 150) :
    (AGE_GROUPS.filter
        (fun p => decide (p.2.1 ≤ age) && decide (age ≤ p.2.2))).map Prod.fst
      = [specAgeLabel age] := by
  have h3 : ((age.toNat : Nat) : Int) = age := Int.toNat_of_nonneg h0
  have h2 : age.toNat < 151 := by omega
  have h4 := (classify_age_group_nat age.toNat h2).1
  rwa [h3] at h4

lemma specAgeLabel_mem (age : Int) :
    specAgeLabel age ∈ ["child", "teen", "young_adult", "adult", "senior"] := by
  unfold specAgeLabel
  split_ifs <;> decide

lemma mod_lookup_isSome :
    ∀ g ∈ ["child", "teen", "young_adult", "adult", "senior"],
      (_AGE_GROUP_MODIFIERS.lookup g).isSome = true := by decide

lemma specAgeLabel_lookup (age : Int) :
    ∃ m, _AGE_GROUP_MODIFIERS.lookup (specAgeLabel age) = some m ∧
      (specAgeLabel age, m) ∈ _AGE_GROUP_MODIFIERS := by
  have h1 := mod_lookup_isSome _ (specAgeLabel_mem age)
  obtain ⟨m, hm⟩ := Option.isSome_iff_exists.mp h1
  exact ⟨m, hm, mem_of_lookup_eq_some _ _ _ hm⟩

lemma specAgeLabel_child (age : Int) (h : age ≤ 12) : specAgeLabel age = "child" := by
  unfold specAgeLabel
  rw [if_pos h]

lemma specAgeLabel_senior (age : Int) (h : 60 ≤ age) : specAgeLabel age = "senior" := by
  unfold specAgeLabel
  rw [if_neg (by omega), if_neg (by omega), if_neg (by omega), if_neg (by omega)]

/-! ## Concrete-table lemmas -/

lemma face_norm_keys : ∀ s ∈ _FACE_SHAPE_FRAMES.map Prod.fst, normalizeShape s = s := by decide

lemma face_lookup_isSome :
    ∀ s ∈ _FACE_SHAPE_FRAMES.map Prod.fst, (_FACE_SHAPE_FRAMES.lookup s).isSome = true := by
  decide

lemma frames_filter_ne_nil :
    ∀ p ∈ _FACE_SHAPE_FRAMES, ∀ q ∈ _AGE_GROUP_MODIFIERS,
      p.2.filter (fun f => !(q.2.avoid.contains f)) ≠ [] := by decide

/-! ## Unfolding lemmas for `recommend_glasses` -/

lemma recommend_glasses_eq_ok (shape : String) (age : Int) (frames : List String)
    (g : String) (m : AgeModifier)
    (hf : _FACE_SHAPE_FRAMES.lookup (normalizeShape shape) = some frames)
    (hg : classify_age_group age = .ok g)
    (hm : _AGE_GROUP_MODIFIERS.lookup g = some m) :
    recommend_glasses shape age =
      .ok { face_shape := normalizeShape shape, age := age, age_group := g,
            recommended_frames := frames.filter (fun f => !(m.avoid.contains f)),
            preferred_features := m.prefer, frames_to_avoid := m.avoid,
            fit_notes := m.fit_notes,
            lens_suggestions := (_AGE_LENS_SUGGESTIONS.lookup g).getD [] } := by
  simp only [recommend_glasses, hf, hg, hm]

lemma recommend_glasses_unknown (shape : String) (age : Int)
    (hf : _FACE_SHAPE_FRAMES.lookup (normalizeShape shape) = none) :
    recommend_glasses shape age = .error (unknownShapeMessage (normalizeShape shape)) := by
  simp only [recommend_glasses, hf]

/-! ## Character lemmas about `Char.toLower` -/

lemma char_toNat_ofNat (n : Nat) (h : n.isValidChar) : (Char.ofNat n).toNat = n := by
  simp [Char.ofNat, h, Char.ofNatAux, Char.toNat, UInt32.toNat]

lemma toLower_of_upper (c : Char) (h : c.toNat ≥ 65 ∧ c.toNat ≤ 90) :
    Char.toLower c = Char.ofNat (c.toNat + 32) := by
  simp only [Char.toLower]
  rw [if_pos h]

lemma toLower_of_not_upper (c : Char) (h : ¬(c.toNat ≥ 65 ∧ c.toNat ≤ 90)) :
    Char.toLower c = c := by
  simp only [Char.toLower]
  rw [if_neg h]

lemma toNat_toLower_of_upper (c : Char) (h : c.toNat ≥ 65 ∧ c.toNat ≤ 90) :
    (Char.toLower c).toNat = c.toNat + 32 := by
  rw [toLower_of_upper c h]
  exact char_toNat_ofNat _ (Or.inl (by omega))

lemma whitespace_toNat (d : Char) (hd : d.isWhitespace = true) :
    d.toNat = 32 ∨ d.toNat = 9 ∨ d.toNat = 13 ∨ d.toNat = 10 := by
  simp [Char.isWhitespace] at hd
  rcases hd with ((h | h) | h) | h <;> subst h <;> decide

lemma isWhitespace_toLower (c : Char) : (Char.toLower c).isWhitespace = c.isWhitespace := by
  by_cases h : c.toNat ≥ 65 ∧ c.toNat ≤ 90
  · have h1 : (Char.toLower c).toNat = c.toNat + 32 := toNat_toLower_of_upper c h
    have h2 : (Char.toLower c).isWhitespace = false := by
      cases hw : (Char.toLower c).isWhitespace
      · rfl
      · exfalso
        rcases whitespace_toNat _ hw with h3 | h3 | h3 | h3 <;> omega
    have h4 : c.isWhitespace = false := by
      cases hw : c.isWhitespace
      · rfl
      · exfalso
        rcases whitespace_toNat _ hw with h3 | h3 | h3 | h3 <;> omega
    rw [h2, h4]
  · rw [toLower_of_not_upper c h]

lemma toLower_toLower (c : Char) : Char.toLower (Char.toLower c) = Char.toLower c := by
  by_cases h : c.toNat ≥ 65 ∧ c.toNat ≤ 90
  · have h1 : (Char.toLower c).toNat = c.toNat + 32 := toNat_toLower_of_upper c h
    apply toLower_of_not_upper
    omega
  · rw [toLower_of_not_upper c h]
    exact toLower_of_not_upper c h

/-! ## List lemmas about `dropWhile` and `stripList` -/

lemma length_dropWhile_le (p : Char → Bool) (l : List Char) :
    (l.dropWhile p).length ≤ l.length := by
  induction l with
  | nil => simp
  | cons a t ih =>
    rw [List.dropWhile_cons]
    split_ifs
    · exact le_trans ih (by simp)
    · simp

lemma dropWhile_dropWhile (p : Char → Bool) (l : List Char) :
    (l.dropWhile p).dropWhile p = l.dropWhile p := by
  induction l with
  | nil => rfl
  | cons a t ih =>
    by_cases h : p a
    · simp [List.dropWhile_cons, h, ih]
    · simp [List.dropWhile_cons, h]

lemma dropWhile_cons_eq_self (p : Char → Bool) (x : Char) (t : List Char)
    (h : (x :: t).dropWhile p = x :: t) : p x = false := by
  by_cases hx : p x
  · exfalso
    rw [List.dropWhile_cons, if_pos hx] at h
    have h1 := length_dropWhile_le p t
    have h2 := congrArg List.length h
    simp at h2
    omega
  · simpa using hx

lemma dropWhile_exists_append (p : Char → Bool) (l : List Char) :
    ∃ t, t ++ l.dropWhile p = l := by
  induction l with
  | nil => exact ⟨[], rfl⟩
  | cons a t ih =>
    by_cases h : p a
    · obtain ⟨u, hu⟩ := ih
      exact ⟨a :: u, by simp [List.dropWhile_cons, h, hu]⟩
    · exact ⟨[], by simp [List.dropWhile_cons, h]⟩

lemma dropWhile_eq_self_of_prefix (p : Char → Bool) (a b u : List Char)
    (ha : a.dropWhile p = a) (hu : b ++ u = a) : b.dropWhile p = b := by
  cases b with
  | nil => rfl
  | cons x t =>
    cases a with
    | nil => simp at hu
    | cons y s =>
      rw [List.cons_append] at hu
      injection hu with h1 h2
      subst h1
      have hx : p x = false := dropWhile_cons_eq_self p x s ha
      rw [List.dropWhile_cons, if_neg (by simp [hx])]

lemma stripList_stripList (l : List Char) : stripList (stripList l) = stripList l := by
  have haa : (l.dropWhile Char.isWhitespace).dropWhile Char.isWhitespace
      = l.dropWhile Char.isWhitespace := dropWhile_dropWhile _ l
  obtain ⟨t, ht⟩ :=
    dropWhile_exists_append Char.isWhitespace (l.dropWhile Char.isWhitespace).reverse
  have h2 : ((l.dropWhile Char.isWhitespace).reverse.dropWhile Char.isWhitespace).reverse
        ++ t.reverse
      = l.dropWhile Char.isWhitespace := by
    have h3 := congrArg List.reverse ht
    simpa [List.reverse_append] using h3
  have h1 : (((l.dropWhile Char.isWhitespace).reverse.dropWhile
        Char.isWhitespace).reverse).dropWhile Char.isWhitespace
      = ((l.dropWhile Char.isWhitespace).reverse.dropWhile Char.isWhitespace).reverse :=
    dropWhile_eq_self_of_prefix _ _ _ _ haa h2
  unfold stripList
  rw [h1, List.reverse_reverse, dropWhile_dropWhile]

lemma stripList_lowerList (l : List Char) :
    stripList (lowerList l) = lowerList (stripList l) := by
  have hpf : (Char.isWhitespace ∘ Char.toLower) = Char.isWhitespace :=
    funext isWhitespace_toLower
  unfold stripList lowerList
  rw [List.dropWhile_map, hpf, ← List.map_reverse, List.dropWhile_map, hpf, ← List.map_reverse]

lemma lowerList_lowerList (l : List Char) : lowerList (lowerList l) = lowerList l := by
  simp [lowerList, List.map_map, Function.comp_def, toLower_toLower]

lemma normList_eq (d : List Char) :
    lowerList (stripList (stripList (lowerList d))) = lowerList (stripList d) := by
  rw [stripList_stripList, stripList_lowerList, lowerList_lowerList]

lemma norm_trim_lower (s : String) :
    normalizeShape (strStrip (strLower s)) = normalizeShape s := by
  unfold normalizeShape strStrip strLower
  exact congrArg String.mk (normList_eq s.data)

/-! ## Error-message lemmas -/

lemma head_data_append (s t : String) (c : Char) (h : s.data.head? = some c) :
    (s ++ t).data.head? = some c := by
  rw [String.data_append]
  cases hd : s.data with
  | nil => rw [hd] at h; exact absurd h (by simp)
  | cons x xs =>
    rw [hd] at h
    rw [List.cons_append]
    simpa using h

lemma unknown_msg_head (fs : String) : (unknownShapeMessage fs).data.head? = some 'U' := by
  unfold unknownShapeMessage
  apply head_data_append
  apply head_data_append
  apply head_data_append
  rfl

lemma age_msg_head (age : Int) :
    ("Age must be non-negative, got " ++ toString age).data.head? = some 'A' :=
  head_data_append _ _ _ rfl

lemma unknown_msg_ne_age (fs : String) (age : Int) :
    unknownShapeMessage fs ≠ "Age must be non-negative, got " ++ toString age := by
  intro h
  have h1 := unknown_msg_head fs
  rw [h] at h1
  rw [age_msg_head age] at h1
  exact absurd h1 (by decide)

/-! ## Claim theorems -/

/-- C1: for every integer age in [0,150], `classify_age_group` returns exactly
one of the five labels, namely the label of the unique `AGE_GROUPS` range
containing the age (child 0-12, teen 13-17, young_adult 18-35, adult 36-59,
senior 60-150); filtering the table for ranges containing the age yields exactly
one entry, so the five ranges partition [0,150] with no gap and no overlap. -/
theorem C1_age_groups_partition (age : Int) (h0 : 0 ≤ age) (h1 : age ≤ 150) :
    (AGE_GROUPS.filter
        (fun p => decide (p.2.1 ≤ age) && decide (age ≤ p.2.2))).map Prod.fst
      = [specAgeLabel age]
    ∧ classify_age_group age = .ok (specAgeLabel age) :=
  ⟨classify_filter age h0 h1, classify_ok age h0 h1⟩

/-- Witness for C1, instantiated at age 90. -/
theorem C1_age_groups_partition_witness :
    (AGE_GROUPS.filter
        (fun p => decide (p.2.1 ≤ (90 : Int)) && decide ((90 : Int) ≤ p.2.2))).map Prod.fst
      = [specAgeLabel 90]
    ∧ classify_age_group 90 = .ok (specAgeLabel 90) :=
  C1_age_groups_partition 90 (by decide) (by decide)

/-- C2: for every supported face shape and valid age, `recommended_frames` is the
base frame list with the age group's avoided entries removed by a stable,
order-preserving filter; in particular "rimless" is filtered out for square at
age 10 (child) but kept for square at age 25 (young adult). -/
theorem C2_stable_filter :
    (∀ (shape : String) (frames : List String) (age : Int),
        _FACE_SHAPE_FRAMES.lookup shape = some frames → 0 ≤ age → age ≤ 150 →
        ∃ g m r, classify_age_group age = .ok g ∧
          _AGE_GROUP_MODIFIERS.lookup g = some m ∧
          recommend_glasses shape age = .ok r ∧
          r.frames_to_avoid = m.avoid ∧
          r.recommended_frames = frames.filter (fun f => !(m.avoid.contains f)))
    ∧ (∃ r, recommend_glasses "square" 10 = .ok r ∧ "rimless" ∉ r.recommended_frames)
    ∧ (∃ r, recommend_glasses "square" 25 = .ok r ∧ "rimless" ∈ r.recommended_frames) := by
  refine ⟨?_, ?_, ?_⟩
  · intro shape frames age hf h0 h1
    have hmem : shape ∈ _FACE_SHAPE_FRAMES.map Prod.fst :=
      List.mem_map.mpr ⟨_, mem_of_lookup_eq_some _ _ _ hf, rfl⟩
    have hn : normalizeShape shape = shape := face_norm_keys shape hmem
    obtain ⟨m, hm, _⟩ := specAgeLabel_lookup age
    have hg := classify_ok age h0 h1
    exact ⟨specAgeLabel age, m, _, hg, hm,
      recommend_glasses_eq_ok shape age frames (specAgeLabel age) m
        (by rw [hn]; exact hf) hg hm, rfl, rfl⟩
  · refine ⟨{ face_shape := "square", age := 10, age_group := "child",
                recommended_frames := ["round", "oval", "cat-eye", "aviator"],
                preferred_features := ["flexible frames", "small fit", "rubber nose pads",
                                       "polycarbonate lenses"],
                frames_to_avoid := ["rimless", "large frames", "heavy metal frames"],
                fit_notes := "Small/petite fit; lightweight and durable materials are essential.",
                lens_suggestions := ["polycarbonate lenses", "anti-scratch coating",
                                     "UV400 protection"] }, by decide, by decide⟩
  · refine ⟨{ face_shape := "square", age := 25, age_group := "young_adult",
                recommended_frames := ["round", "oval", "rimless", "cat-eye", "aviator"],
                preferred_features := ["fashion-forward", "bold colors", "geometric",
                                       "large fit"],
                frames_to_avoid := [],
                fit_notes := "Standard adult fit; wide variety of styles suitable.",
                lens_suggestions := ["single-vision", "anti-reflective coating",
                                     "blue-light filter"] }, by decide, by decide⟩

/-- Witness for C2, instantiated at face shape "oval" and age 70. -/
theorem C2_stable_filter_witness :
    ∃ g m r, classify_age_group 70 = .ok g ∧ _AGE_GROUP_MODIFIERS.lookup g = some m ∧
      recommend_glasses "oval" 70 = .ok r ∧ r.frames_to_avoid = m.avoid ∧
      r.recommended_frames = (["aviator", "wayfarer", "round", "cat-eye", "geometric"]).filter
        (fun f => !(m.avoid.contains f)) :=
  C2_stable_filter.1 "oval" ["aviator", "wayfarer", "round", "cat-eye", "geometric"] 70
    (by decide) (by decide) (by decide)

/-- C3: for every one of the 7 supported face shapes and every age in [0,150]
(hence all 35 shape-age-group combinations), `recommend_glasses` succeeds and
returns a non-empty `recommended_frames` list. -/
theorem C3_all_combinations_nonempty (shape : String) (age : Int)
    (hs : shape ∈ _FACE_SHAPE_FRAMES.map Prod.fst) (h0 : 0 ≤ age) (h1 : age ≤ 150) :
    ∃ r, recommend_glasses shape age = .ok r ∧ r.recommended_frames ≠ [] := by
  have hn : normalizeShape shape = shape := face_norm_keys shape hs
  obtain ⟨frames, hf⟩ := Option.isSome_iff_exists.mp (face_lookup_isSome shape hs)
  obtain ⟨m, hm, hmmem⟩ := specAgeLabel_lookup age
  have hg := classify_ok age h0 h1
  refine ⟨_, recommend_glasses_eq_ok shape age frames (specAgeLabel age) m
      (by rw [hn]; exact hf) hg hm, ?_⟩
  exact frames_filter_ne_nil (shape, frames) (mem_of_lookup_eq_some _ _ _ hf)
    (specAgeLabel age, m) hmmem

/-- Witness for C3, instantiated at face shape "oval" and age 30. -/
theorem C3_all_combinations_nonempty_witness :
    ∃ r, recommend_glasses "oval" 30 = .ok r ∧ r.recommended_frames ≠ [] :=
  C3_all_combinations_nonempty "oval" 30 (by decide) (by decide) (by decide)

/-- C4: `classify_age_group` fails exactly outside [0,150]: for age < 0 with a
message identifying the offending value, for age > 150 with the defensive
no-range-covers message, and it succeeds for every age in [0,150]. -/
theorem C4_invalid_age (age : Int) :
    (age < 0 →
      classify_age_group age = .error ("Age must be non-negative, got " ++ toString age))
    ∧ (150 < age →
      classify_age_group age = .error ("Could not classify age " ++ toString age))
    ∧ (0 ≤ age → age ≤ 150 → ∃ g, classify_age_group age = .ok g) := by
  refine ⟨fun h => ?_, fun h => ?_, fun h0 h1 => ⟨specAgeLabel age, classify_ok age h0 h1⟩⟩
  · unfold classify_age_group
    rw [if_pos h]
  · have hfind : findGroup age AGE_GROUPS = none := by
      simp only [AGE_GROUPS, findGroup]
      split_ifs <;> first | rfl | (exfalso; omega)
    unfold classify_age_group
    rw [if_neg (by omega), hfind]

/-- Witness for C4, instantiated at ages -1, 200 and 75. -/
theorem C4_invalid_age_witness :
    classify_age_group (-1) = .error "Age must be non-negative, got -1"
    ∧ classify_age_group 200 = .error "Could not classify age 200"
    ∧ ∃ g, classify_age_group 75 = .ok g :=
  ⟨(C4_invalid_age (-1)).1 (by decide), (C4_invalid_age 200).2.1 (by decide),
    (C4_invalid_age 75).2.2 (by decide) (by decide)⟩

/-- C5: for every input string whose trimmed, lowercased form is not one of the
7 supported labels, and any age, `recommend_glasses` fails with the
unknown-face-shape error whose message carries the normalized value and the
supported-shape list; in particular for "hexagon" at age 30. -/
theorem C5_unknown_face_shape :
    (∀ (s : String) (age : Int),
        normalizeShape s ∉ _FACE_SHAPE_FRAMES.map Prod.fst →
        recommend_glasses s age = .error (unknownShapeMessage (normalizeShape s)))
    ∧ recommend_glasses "hexagon" 30 =
        .error ("Unknown face shape \x27hexagon\x27. Supported shapes: [\x27oval\x27, \x27round\x27, \x27square\x27, \x27heart\x27, \x27oblong\x27, \x27diamond\x27, \x27triangle\x27]") := by
  constructor
  · intro s age h
    exact recommend_glasses_unknown s age (lookup_eq_none_of_not_mem _ _ h)
  · decide

/-- Witness for C5, instantiated at "HEXAGON " and age -7. -/
theorem C5_unknown_face_shape_witness :
    recommend_glasses "HEXAGON " (-7) =
      .error (unknownShapeMessage (normalizeShape "HEXAGON ")) :=
  C5_unknown_face_shape.1 "HEXAGON " (-7) (by decide)

/-- C6: face-shape matching is case- and whitespace-insensitive: recommending
for `s` and for `trim(lowercase(s))` yields identical results for every string
and valid age; in particular " Round " at 25 equals "round" at 25. -/
theorem C6_case_whitespace_insensitive :
    (∀ (s : String) (age : Int), 0 ≤ age → age ≤ 150 →
        recommend_glasses s age = recommend_glasses (strStrip (strLower s)) age)
    ∧ recommend_glasses " Round " 25 = recommend_glasses "round" 25 := by
  constructor
  · intro s age _ _
    unfold recommend_glasses
    rw [norm_trim_lower]
  · decide

/-- Witness for C6, instantiated at " Round " and age 25. -/
theorem C6_case_whitespace_insensitive_witness :
    recommend_glasses " Round " 25 = recommend_glasses (strStrip (strLower " Round ")) 25 :=
  C6_case_whitespace_insensitive.1 " Round " 25 (by decide) (by decide)

/-- C7: on success every field of the returned record is populated from the
tables for the normalized shape and classified age group, and
`lens_suggestions` falls back to the empty list (via `Option.getD`) if the age
group had no lens-table entry, without failing the call. -/
theorem C7_fields_populated (shape : String) (frames : List String) (age : Int)
    (hf : _FACE_SHAPE_FRAMES.lookup (normalizeShape shape) = some frames)
    (h0 : 0 ≤ age) (h1 : age ≤ 150) :
    ∃ g m, classify_age_group age = .ok g ∧ _AGE_GROUP_MODIFIERS.lookup g = some m ∧
      recommend_glasses shape age = .ok
        { face_shape := normalizeShape shape, age := age, age_group := g,
          recommended_frames := frames.filter (fun f => !(m.avoid.contains f)),
          preferred_features := m.prefer, frames_to_avoid := m.avoid,
          fit_notes := m.fit_notes,
          lens_suggestions := (_AGE_LENS_SUGGESTIONS.lookup g).getD [] } := by
  obtain ⟨m, hm, _⟩ := specAgeLabel_lookup age
  have hg := classify_ok age h0 h1
  exact ⟨specAgeLabel age, m, hg, hm,
    recommend_glasses_eq_ok shape age frames (specAgeLabel age) m hf hg hm⟩

/-- Witness for C7, instantiated at face shape "heart" and age 40. -/
theorem C7_fields_populated_witness :
    ∃ g m, classify_age_group 40 = .ok g ∧ _AGE_GROUP_MODIFIERS.lookup g = some m ∧
      recommend_glasses "heart" 40 = .ok
        { face_shape := normalizeShape "heart", age := 40, age_group := g,
          recommended_frames :=
            (["aviator", "round", "rimless", "light-colored frames"]).filter
              (fun f => !(m.avoid.contains f)),
          preferred_features := m.prefer, frames_to_avoid := m.avoid,
          fit_notes := m.fit_notes,
          lens_suggestions := (_AGE_LENS_SUGGESTIONS.lookup g).getD [] } :=
  C7_fields_populated "heart" ["aviator", "round", "rimless", "light-colored frames"] 40
    (by decide) (by decide) (by decide)

/-- C8: age groups differentiate the output: preferred features differ between
oval at 8 and oval at 70, and for every supported shape the fit notes for a
child-age input differ from those for a senior-age input. -/
theorem C8_age_differentiates :
    ((recommend_glasses "oval" 8).map GlassRecommendation.preferred_features ≠
      (recommend_glasses "oval" 70).map GlassRecommendation.preferred_features)
    ∧ (∀ (shape : String) (a1 a2 : Int), shape ∈ _FACE_SHAPE_FRAMES.map Prod.fst →
        0 ≤ a1 → a1 ≤ 12 → 60 ≤ a2 → a2 ≤ 150 →
        ∃ r1 r2, recommend_glasses shape a1 = .ok r1 ∧
          recommend_glasses shape a2 = .ok r2 ∧ r1.fit_notes ≠ r2.fit_notes) := by
  constructor
  · decide
  · intro shape a1 a2 hs h0 h12 h60 h150
    have hn : normalizeShape shape = shape := face_norm_keys shape hs
    obtain ⟨frames, hf⟩ := Option.isSome_iff_exists.mp (face_lookup_isSome shape hs)
    have hg1 : classify_age_group a1 = .ok "child" := by
      have h := classify_ok a1 h0 (by omega)
      rwa [specAgeLabel_child a1 h12] at h
    have hg2 : classify_age_group a2 = .ok "senior" := by
      have h := classify_ok a2 (by omega) h150
      rwa [specAgeLabel_senior a2 h60] at h
    have hmc : _AGE_GROUP_MODIFIERS.lookup "child" = some
        { prefer := ["flexible frames", "small fit", "rubber nose pads",
                     "polycarbonate lenses"],
          avoid := ["rimless", "large frames", "heavy metal frames"],
          fit_notes := "Small/petite fit; lightweight and durable materials are essential." } := by
      decide
    have hms : _AGE_GROUP_MODIFIERS.lookup "senior" = some
        { prefer := ["progressive-lens ready", "lightweight frames", "wide fit",
                     "high nose bridge", "spring hinges"],
          avoid := ["very small frames", "heavy frames"],
          fit_notes := "Wide fit with spring hinges; frames should accommodate progressive or bifocal lenses. Lightweight materials (titanium, memory metal) reduce fatigue." } := by
      decide
    exact ⟨_, _, recommend_glasses_eq_ok shape a1 frames "child" _
        (by rw [hn]; exact hf) hg1 hmc,
      recommend_glasses_eq_ok shape a2 frames "senior" _
        (by rw [hn]; exact hf) hg2 hms, by
          show "Small/petite fit; lightweight and durable materials are essential." ≠
            "Wide fit with spring hinges; frames should accommodate progressive or bifocal lenses. Lightweight materials (titanium, memory metal) reduce fatigue."
          decide⟩

/-- Witness for C8, instantiated at face shape "round", ages 5 and 80. -/
theorem C8_age_differentiates_witness :
    ∃ r1 r2, recommend_glasses "round" 5 = .ok r1 ∧
      recommend_glasses "round" 80 = .ok r2 ∧ r1.fit_notes ≠ r2.fit_notes :=
  C8_age_differentiates.2 "round" 5 80 (by decide) (by decide) (by decide)
    (by decide) (by decide)

/-- C10: face-shape validation precedes age classification: for an unsupported
normalized shape together with an invalid (negative) age, the call fails with
the unknown-face-shape error, not with the invalid-age error. -/
theorem C10_shape_validation_first (s : String) (age : Int)
    (hns : normalizeShape s ∉ _FACE_SHAPE_FRAMES.map Prod.fst) (hage : age < 0) :
    recommend_glasses s age = .error (unknownShapeMessage (normalizeShape s)) ∧
    recommend_glasses s age ≠ .error ("Age must be non-negative, got " ++ toString age) := by
  have h1 := recommend_glasses_unknown s age (lookup_eq_none_of_not_mem _ _ hns)
  refine ⟨h1, ?_⟩
  rw [h1]
  intro h2
  injection h2 with h3
  exact unknown_msg_ne_age (normalizeShape s) age h3

/-- Witness for C10, instantiated at "hexagon" and age -5. -/
theorem C10_shape_validation_first_witness :
    recommend_glasses "hexagon" (-5) = .error (unknownShapeMessage (normalizeShape "hexagon")) ∧
    recommend_glasses "hexagon" (-5) ≠
      .error ("Age must be non-negative, got " ++ toString (-5 : Int)) :=
  C10_shape_validation_first "hexagon" (-5) (by decide) (by decide)

/-! ## Newline-freeness lemmas for the summary renderer -/

lemma noNewline_append (a b : String) (ha : noNewline a) (hb : noNewline b) :
    noNewline (a ++ b) := by
  simp only [noNewline, String.data_append, List.mem_append]
  rintro (h | h)
  · exact ha h
  · exact hb h

lemma commaJoin_noNewline (xs : List String) (h : ∀ x ∈ xs, noNewline x) :
    noNewline (commaJoin xs) := by
  induction xs with
  | nil => decide
  | cons a t ih =>
    cases t with
    | nil => simpa [commaJoin] using h a (by simp)
    | cons b u =>
      have h1 : noNewline a := h a (by simp)
      have h2 : noNewline (commaJoin (b :: u)) := ih (fun x hx => h x (by simp [hx]))
      exact noNewline_append _ _ (noNewline_append _ _ h1 (by decide)) h2

lemma digitChar_ne_newline (n : Nat) : Nat.digitChar n ≠ '\n' := by
  by_cases h15 : n ≤ 15
  · interval_cases n <;> decide
  · unfold Nat.digitChar
    iterate 16 rw [if_neg (by omega)]
    decide

lemma toDigitsCore_no_newline (fuel : Nat) : ∀ (n : Nat) (acc : List Char),
    '\n' ∉ acc → '\n' ∉ Nat.toDigitsCore 10 fuel n acc := by
  induction fuel with
  | zero => intro n acc hacc; simpa [Nat.toDigitsCore] using hacc
  | succ f ih =>
    intro n acc hacc
    have hd : '\n' ∉ (n % 10).digitChar :: acc := by
      intro hx
      rcases List.mem_cons.mp hx with hx1 | hx2
      · exact digitChar_ne_newline _ hx1.symm
      · exact hacc hx2
    simp only [Nat.toDigitsCore]
    split_ifs
    · exact hd
    · exact ih _ _ hd

lemma int_toString_noNewline (i : Int) : noNewline (toString i) := by
  show '\n' ∉ (Int.repr i).data
  cases i with
  | ofNat m =>
    show '\n' ∉ (Nat.repr m).data
    exact toDigitsCore_no_newline _ _ _ (by simp)
  | negSucc m =>
    show '\n' ∉ ("-" ++ Nat.repr (m + 1)).data
    rw [String.data_append]
    intro hx
    rcases List.mem_append.mp hx with hx1 | hx2
    · simp at hx1
    · exact toDigitsCore_no_newline _ _ _ (by simp) hx2

/-! ## Splitting the joined summary back into lines -/

lemma splitLinesAux_no_newline (l : List Char) : ∀ acc : List Char, '\n' ∉ l →
    splitLinesAux acc l = [acc.reverse ++ l] := by
  induction l with
  | nil => intro acc _; simp [splitLinesAux]
  | cons c cs ih =>
    intro acc h
    have hc : ¬(c = '\n') := fun hc => h (by simp [hc])
    have hcs : '\n' ∉ cs := fun hx => h (by simp [hx])
    simp only [splitLinesAux]
    rw [if_neg hc, ih _ hcs]
    simp

lemma splitLinesAux_newline_split (l : List Char) : ∀ (acc rest : List Char), '\n' ∉ l →
    splitLinesAux acc (l ++ '\n' :: rest) = (acc.reverse ++ l) :: splitLinesAux [] rest := by
  induction l with
  | nil => intro acc rest _; simp [splitLinesAux]
  | cons c cs ih =>
    intro acc rest h
    have hc : ¬(c = '\n') := fun hc => h (by simp [hc])
    have hcs : '\n' ∉ cs := fun hx => h (by simp [hx])
    rw [List.cons_append]
    simp only [splitLinesAux]
    rw [if_neg hc, ih _ _ hcs]
    simp

lemma newlineJoin_two (a b : String) (t : List String) :
    (newlineJoin (a :: b :: t)).data = a.data ++ '\n' :: (newlineJoin (b :: t)).data := by
  show ((a ++ "\n") ++ newlineJoin (b :: t)).data = _
  rw [String.data_append, String.data_append]
  simp

lemma linesOf_newlineJoin (ls : List String) (hne : ls ≠ [])
    (h : ∀ l ∈ ls, '\n' ∉ l.data) :
    linesOf (newlineJoin ls) = ls.map String.data := by
  induction ls with
  | nil => exact absurd rfl hne
  | cons a t ih =>
    cases t with
    | nil =>
      show splitLinesAux [] (newlineJoin [a]).data = [a.data]
      have h1 := splitLinesAux_no_newline a.data [] (h a (by simp))
      simpa using h1
    | cons b u =>
      show splitLinesAux [] (newlineJoin (a :: b :: u)).data = a.data :: (b :: u).map String.data
      rw [newlineJoin_two, splitLinesAux_newline_split _ _ _ (h a (by simp))]
      simp only [List.reverse_nil, List.nil_append]
      congr 1
      exact ih (by simp) (fun l hl => h l (by simp [hl]))

/-! ## Prefix lemmas on character lists -/

lemma isPrefixOf_self_append (l r : List Char) : l.isPrefixOf (l ++ r) = true := by
  induction l with
  | nil => simp [List.isPrefixOf]
  | cons a t ih => simp [List.isPrefixOf, ih]

lemma isPrefixOf_append_false (l₁ : List Char) : ∀ (l₂ r : List Char),
    l₁.length ≤ l₂.length → l₁.isPrefixOf l₂ = false → l₁.isPrefixOf (l₂ ++ r) = false := by
  induction l₁ with
  | nil => intro l₂ r _ h; simp [List.isPrefixOf] at h
  | cons a t ih =>
    intro l₂ r hlen h
    cases l₂ with
    | nil => simp at hlen
    | cons b u =>
      rw [List.cons_append]
      by_cases hab : a = b
      · subst hab
        simp only [List.isPrefixOf, beq_self_eq_true, Bool.true_and] at h ⊢
        exact ih u r (by simpa using hlen) h
      · have hab2 : (a == b) = false := beq_eq_false_iff_ne.mpr hab
        simp [List.isPrefixOf, hab2]

/-! ## Structure of the summary lines -/

lemma summaryLines_ne_nil (r : GlassRecommendation) : summaryLines r ≠ [] := by
  simp only [summaryLines]
  split_ifs <;> simp

lemma summaryLines_mem_cases (r : GlassRecommendation) (l : String)
    (hl : l ∈ summaryLines r) :
    l = "Face shape  : " ++ r.face_shape ∨
    l = "Age         : " ++ toString r.age ++ " (" ++ r.age_group ++ ")" ∨
    l = "Frames      : " ++ commaJoin r.recommended_frames ∨
    l = "Features    : " ++ commaJoin r.preferred_features ∨
    (l = "Avoid       : " ++ commaJoin r.frames_to_avoid ∧ r.frames_to_avoid ≠ []) ∨
    (l = "Lenses      : " ++ commaJoin r.lens_suggestions ∧ r.lens_suggestions ≠ []) ∨
    l = "Fit notes   : " ++ r.fit_notes := by
  simp only [summaryLines] at hl
  split_ifs at hl <;> simp_all [List.isEmpty_iff]

lemma summaryLines_noNewline (r : GlassRecommendation) (h : noNewlineFields r) :
    ∀ l ∈ summaryLines r, '\n' ∉ l.data := by
  obtain ⟨hfs, hag, hfn, hrf, hpf, hfa, hls⟩ := h
  intro l hl
  rcases summaryLines_mem_cases r l hl with rfl | rfl | rfl | rfl | ⟨rfl, _⟩ | ⟨rfl, _⟩ | rfl
  · exact noNewline_append _ _ (by decide) hfs
  · exact noNewline_append _ _
      (noNewline_append _ _
        (noNewline_append _ _
          (noNewline_append _ _ (by decide) (int_toString_noNewline _)) (by decide)) hag)
      (by decide)
  · exact noNewline_append _ _ (by decide) (commaJoin_noNewline _ hrf)
  · exact noNewline_append _ _ (by decide) (commaJoin_noNewline _ hpf)
  · exact noNewline_append _ _ (by decide) (commaJoin_noNewline _ hfa)
  · exact noNewline_append _ _ (by decide) (commaJoin_noNewline _ hls)
  · exact noNewline_append _ _ (by decide) hfn

lemma face_line_mem (r : GlassRecommendation) :
    ("Face shape  : " ++ r.face_shape) ∈ summaryLines r := by
  simp only [summaryLines]
  split_ifs <;> simp

lemma age_line_mem (r : GlassRecommendation) :
    ("Age         : " ++ toString r.age ++ " (" ++ r.age_group ++ ")") ∈ summaryLines r := by
  simp only [summaryLines]
  split_ifs <;> simp

lemma fit_line_mem (r : GlassRecommendation) :
    ("Fit notes   : " ++ r.fit_notes) ∈ summaryLines r := by
  simp only [summaryLines]
  split_ifs <;> simp

lemma avoid_line_mem (r : GlassRecommendation) (hne : r.frames_to_avoid ≠ []) :
    ("Avoid       : " ++ commaJoin r.frames_to_avoid) ∈ summaryLines r := by
  have h1 : ¬(r.frames_to_avoid.isEmpty = true) := fun hx => hne (List.isEmpty_iff.mp hx)
  simp only [summaryLines]
  rw [if_neg h1]
  split_ifs <;> simp

lemma lens_line_mem (r : GlassRecommendation) (hne : r.lens_suggestions ≠ []) :
    ("Lenses      : " ++ commaJoin r.lens_suggestions) ∈ summaryLines r := by
  have h1 : ¬(r.lens_suggestions.isEmpty = true) := fun hx => hne (List.isEmpty_iff.mp hx)
  simp only [summaryLines]
  rw [if_neg h1]
  split_ifs <;> simp

/-! ## Substring containment in the joined summary -/

lemma newlineJoin_contains (x : String) : ∀ ls : List String, x ∈ ls →
    ∃ p q, (newlineJoin ls).data = p ++ x.data ++ q := by
  intro ls
  induction ls with
  | nil => intro hx; simp at hx
  | cons a t ih =>
    intro hx
    cases t with
    | nil =>
      have hx2 : x = a := by simpa using hx
      subst hx2
      exact ⟨[], [], by show x.data = [] ++ x.data ++ []; simp⟩
    | cons b u =>
      rcases List.mem_cons.mp hx with rfl | hx2
      · refine ⟨[], '\n' :: (newlineJoin (b :: u)).data, ?_⟩
        rw [newlineJoin_two]
        simp
      · obtain ⟨p, q, hpq⟩ := ih hx2
        refine ⟨a.data ++ '\n' :: p, q, ?_⟩
        rw [newlineJoin_two, hpq]
        simp

lemma summary_contains_suffix_line (r : GlassRecommendation) (hdr content : String)
    (hmem : (hdr ++ content) ∈ summaryLines r) :
    ∃ p q, r.summary.data = p ++ content.data ++ q := by
  obtain ⟨p, q, hpq⟩ := newlineJoin_contains _ _ hmem
  refine ⟨p ++ hdr.data, q, ?_⟩
  show (newlineJoin (summaryLines r)).data = _
  rw [hpq, String.data_append]
  simp [List.append_assoc]

lemma summary_contains_mid_line (r : GlassRecommendation) (a b c : String)
    (hmem : (a ++ b ++ c) ∈ summaryLines r) :
    ∃ p q, r.summary.data = p ++ b.data ++ q := by
  obtain ⟨p, q, hpq⟩ := newlineJoin_contains _ _ hmem
  refine ⟨p ++ a.data, c.data ++ q, ?_⟩
  show (newlineJoin (summaryLines r)).data = _
  rw [hpq]
  simp [String.data_append, List.append_assoc]

lemma summary_has_newline (r : GlassRecommendation) :
    ∃ p q, r.summary.data = p ++ '\n' :: q := by
  show ∃ p q, (newlineJoin (summaryLines r)).data = p ++ '\n' :: q
  simp only [summaryLines]
  split_ifs <;> exact ⟨_, _, newlineJoin_two _ _ _⟩

/-! ## Presence of header lines in the summary -/

lemma not_hasPrefix_line (hx hy w : String)
    (hlen : hx.data.length ≤ hy.data.length)
    (hpf : hx.data.isPrefixOf hy.data = false)
    (hcontra : hx.data.isPrefixOf ((hy ++ w).data) = true) : False := by
  rw [String.data_append, isPrefixOf_append_false _ _ _ hlen hpf] at hcontra
  simp at hcontra

lemma hasLine_avoid_iff (r : GlassRecommendation) (h : noNewlineFields r) :
    hasLineStarting "Avoid       : " r.summary = true ↔ r.frames_to_avoid ≠ [] := by
  have hlines : linesOf r.summary = (summaryLines r).map String.data :=
    linesOf_newlineJoin _ (summaryLines_ne_nil r) (summaryLines_noNewline r h)
  unfold hasLineStarting
  rw [hlines, List.any_eq_true]
  constructor
  · rintro ⟨ld, hld, hpref⟩
    obtain ⟨l, hlmem, rfl⟩ := List.mem_map.mp hld
    rcases summaryLines_mem_cases r l hlmem with
      rfl | rfl | rfl | rfl | ⟨rfl, hne⟩ | ⟨rfl, hne⟩ | rfl
    · exfalso
      simp only [String.append_assoc] at hpref
      exact not_hasPrefix_line _ _ _ (by decide) (by decide) hpref
    · exfalso
      simp only [String.append_assoc] at hpref
      exact not_hasPrefix_line _ _ _ (by decide) (by decide) hpref
    · exfalso
      simp only [String.append_assoc] at hpref
      exact not_hasPrefix_line _ _ _ (by decide) (by decide) hpref
    · exfalso
      simp only [String.append_assoc] at hpref
      exact not_hasPrefix_line _ _ _ (by decide) (by decide) hpref
    · exact hne
    · exfalso
      simp only [String.append_assoc] at hpref
      exact not_hasPrefix_line _ _ _ (by decide) (by decide) hpref
    · exfalso
      simp only [String.append_assoc] at hpref
      exact not_hasPrefix_line _ _ _ (by decide) (by decide) hpref
  · intro hne
    refine ⟨("Avoid       : " ++ commaJoin r.frames_to_avoid).data,
      List.mem_map_of_mem _ (avoid_line_mem r hne), ?_⟩
    rw [String.data_append]
    exact isPrefixOf_self_append _ _

lemma hasLine_lenses_iff (r : GlassRecommendation) (h : noNewlineFields r) :
    hasLineStarting "Lenses      : " r.summary = true ↔ r.lens_suggestions ≠ [] := by
  have hlines : linesOf r.summary = (summaryLines r).map String.data :=
    linesOf_newlineJoin _ (summaryLines_ne_nil r) (summaryLines_noNewline r h)
  unfold hasLineStarting
  rw [hlines, List.any_eq_true]
  constructor
  · rintro ⟨ld, hld, hpref⟩
    obtain ⟨l, hlmem, rfl⟩ := List.mem_map.mp hld
    rcases summaryLines_mem_cases r l hlmem with
      rfl | rfl | rfl | rfl | ⟨rfl, hne⟩ | ⟨rfl, hne⟩ | rfl
    · exfalso
      simp only [String.append_assoc] at hpref
      exact not_hasPrefix_line _ _ _ (by decide) (by decide) hpref
    · exfalso
      simp only [String.append_assoc] at hpref
      exact not_hasPrefix_line _ _ _ (by decide) (by decide) hpref
    · exfalso
      simp only [String.append_assoc] at hpref
      exact not_hasPrefix_line _ _ _ (by decide) (by decide) hpref
    · exfalso
      simp only [String.append_assoc] at hpref
      exact not_hasPrefix_line _ _ _ (by decide) (by decide) hpref
    · exfalso
      simp only [String.append_assoc] at hpref
      exact not_hasPrefix_line _ _ _ (by decide) (by decide) hpref
    · exact hne
    · exfalso
      simp only [String.append_assoc] at hpref
      exact not_hasPrefix_line _ _ _ (by decide) (by decide) hpref
  · intro hne
    refine ⟨("Lenses      : " ++ commaJoin r.lens_suggestions).data,
      List.mem_map_of_mem _ (lens_line_mem r hne), ?_⟩
    rw [String.data_append]
    exact isPrefixOf_self_append _ _

/-- C9 (amended): for every `GlassRecommendation`, `summary` is a multi-line
string (it contains a newline) containing the face-shape string, the age-group
label and the fit-notes string verbatim; and, provided the record's string
fields contain no newline characters (true of every engine-built record), the
summary has a line starting with the avoid header iff `frames_to_avoid` is
non-empty, and a line starting with the lenses header iff `lens_suggestions`
is non-empty. -/
theorem C9_summary_rendering (r : GlassRecommendation) :
    (∃ p q, r.summary.data = p ++ '\n' :: q) ∧
    (∃ p q, r.summary.data = p ++ r.face_shape.data ++ q) ∧
    (∃ p q, r.summary.data = p ++ r.age_group.data ++ q) ∧
    (∃ p q, r.summary.data = p ++ r.fit_notes.data ++ q) ∧
    (noNewlineFields r →
      (hasLineStarting "Avoid       : " r.summary = true ↔ r.frames_to_avoid ≠ []) ∧
      (hasLineStarting "Lenses      : " r.summary = true ↔ r.lens_suggestions ≠ [])) := by
  refine ⟨summary_has_newline r, summary_contains_suffix_line r _ _ (face_line_mem r), ?_,
    summary_contains_suffix_line r _ _ (fit_line_mem r),
    fun h => ⟨hasLine_avoid_iff r h, hasLine_lenses_iff r h⟩⟩
  exact summary_contains_mid_line r ("Age         : " ++ toString r.age ++ " (")
    r.age_group ")" (age_line_mem r)

/-- C9 counterexample: the claim quantifies over every `Recommendation`, but a
record whose `face_shape` embeds a newline forges an "Avoid" line: its summary
contains a line starting with the avoid header even though `frames_to_avoid`
is empty, refuting the claimed equivalence as stated. -/
theorem C9_summary_counterexample :
    forgedRec.frames_to_avoid = [] ∧
    hasLineStarting "Avoid       : " forgedRec.summary = true := by decide

/-- Witness for C9, instantiated at the concrete newline-free record `plainRec`. -/
theorem C9_summary_rendering_witness :
    noNewlineFields plainRec ∧
    ((hasLineStarting "Avoid       : " plainRec.summary = true ↔
        plainRec.frames_to_avoid ≠ []) ∧
     (hasLineStarting "Lenses      : " plainRec.summary = true ↔
        plainRec.lens_suggestions ≠ [])) :=
  ⟨by decide, (C9_summary_rendering plainRec).2.2.2.2 (by decide)⟩
